import Mathlib

/-!
Shallow embedding of `src/webcache/webcache.py` (an HTTP caching WSGI
intermediary backed by a memcached-style KV store), together with proofs
about the claims of its specification.

Modelling conventions:

* Wall-clock instants are natural numbers counting microseconds since the
  Unix epoch.  The Python source passes `time.time()` floats (seconds with
  microsecond precision) everywhere; a microsecond-resolution integer clock
  captures exactly the precision the program relies on (`session` is
  formatted with 6 fractional digits by `"%f"`).  Constants that the source
  expresses in seconds (e.g. `EXPIRE_SECS`) are scaled by `usPerSec` at
  their use sites.
* Fallible Python code (exceptions) is modelled with `Except PyExn`.
  `PyExn.valueError` stands for the `ValueError` raised by
  `time.strptime`/`datetime` on malformed dates, `PyExn.consistencyError`
  for the source's `ConsistencyError`.
* Concurrency: the reservation / update loops interact with the shared KV
  store once per iteration.  Each iteration's interaction is drawn from an
  environment (`ResIter` / `UCIter`): the metadata snapshot observed by
  `gets`, the current time, and the outcome of the `cas`/`add` write
  (success, stale token, or `NotFound`).  This models an adversarial
  scheduler: other workers may change the store arbitrarily between
  iterations.
* `hashlib.sha256` is an external library; it is modelled by an injective
  stand-in (the identity on the content string), since the program only
  ever compares digests for equality.
-/

/-! ### Configuration constants (verbatim from the source) -/

def UPDATE_MAX_ATTEMPTS : Nat := 20

def EXPIRE_SECS : Nat := 30

def DROP_NOT_OK_STATUS : Bool := true

/-- Headers that are removed from the server -> cache/client response. -/
def drop_headers : List String :=
  ["Last-Modified", "Vary", "Server", "Keep-Alive", "Connection",
   "Transfer-Encoding", "Content-Encoding"]

/-- Microseconds per second: the resolution of the modelled wall clock. -/
def usPerSec : Nat := 1000000

/-! ### HTTP dates

The source uses `time.strptime` with format `'%a, %d %b %Y %H:%M:%S %Z'`
to parse and `datetime.strftime` with `'%a, %d %b %Y %H:%M:%S GMT'` to
display.  Both are embedded concretely below, using the standard civil
calendar <-> epoch-day conversions. -/

def weekdayNames : List String :=
  ["Sun", "Mon", "Tue", "Wed", "Thu", "Fri", "Sat"]

def monthNames : List String :=
  ["Jan", "Feb", "Mar", "Apr", "May", "Jun",
   "Jul", "Aug", "Sep", "Oct", "Nov", "Dec"]

/-- Two-digit zero padding, as produced by strftime `%d`, `%H`, `%M`, `%S`. -/
def pad2 (n : Nat) : String :=
  if n < 10 then "0" ++ Nat.repr n else Nat.repr n

/-- Civil date (year, month, day) of a day count since 1970-01-01
(days-from-civil inverse, valid for days >= 0). -/
def civilFromDays (z : Nat) : Nat × Nat × Nat :=
  let z' := z + 719468
  let era := z' / 146097
  let doe := z' % 146097
  let yoe := (doe - doe / 1460 + doe / 36524 - doe / 146096) / 365
  let y := yoe + era * 400
  let doy := doe - (365 * yoe + yoe / 4 - yoe / 100)
  let mp := (5 * doy + 2) / 153
  let d := doy - (153 * mp + 2) / 5 + 1
  let m := if mp < 10 then mp + 3 else mp - 9
  (if m ≤ 2 then y + 1 else y, m, d)

/-- Day count since 1970-01-01 of a civil date (valid for years >= 1970). -/
def daysFromCivil (y m d : Nat) : Nat :=
  let y' := if m ≤ 2 then y - 1 else y
  let era := y' / 400
  let yoe := y' % 400
  let doy := (153 * (if m > 2 then m - 3 else m + 9) + 2) / 5 + d - 1
  let doe := yoe * 365 + yoe / 4 - yoe / 100 + doy
  era * 146097 + doe - 719468

/-- Embedding of `make_http_date` composed with
`datetime.datetime.fromtimestamp(_, tz=gmt_tz)`: renders a microsecond
instant with strftime format `'%a, %d %b %Y %H:%M:%S GMT'`. -/
def make_http_date (t : Nat) : String :=
  let secs := t / usPerSec
  let days := secs / 86400
  let sod := secs % 86400
  let ymd := civilFromDays days
  let wd := (days + 4) % 7
  (weekdayNames.getD wd "") ++ ", " ++ pad2 ymd.2.2 ++ " " ++
    (monthNames.getD (ymd.2.1 - 1) "") ++ " " ++ Nat.repr ymd.1 ++ " " ++
    pad2 (sod / 3600) ++ ":" ++ pad2 (sod % 3600 / 60) ++ ":" ++
    pad2 (sod % 60) ++ " GMT"

/-! ### HTTP date parsing -/

def isDigitChar (c : Char) : Bool := decide ('0' ≤ c) && decide (c ≤ '9')

def digitsToNat (l : List Char) : Nat :=
  l.foldl (fun a c => 10 * a + (c.toNat - 48)) 0

/-- Splits a leading run of decimal digits off a character list. -/
def splitDigits : List Char → List Char × List Char
  | [] => ([], [])
  | c :: rest =>
    if isDigitChar c then
      let p := splitDigits rest
      (c :: p.1, p.2)
    else ([], c :: rest)

/-- Strips an exact literal off the front of a character list. -/
def stripLit (pat : List Char) (l : List Char) : Option (List Char) :=
  if pat.isPrefixOf l then some (l.drop pat.length) else none

/-- Matches one of a list of names as a prefix, returning its index and
the rest of the input. -/
def matchName : List String → Nat → List Char → Option (Nat × List Char)
  | [], _, _ => none
  | p :: ps, i, l =>
    match stripLit p.data l with
    | some r => some (i, r)
    | none => matchName ps (i + 1) l

def ensure (b : Bool) : Option Unit := if b then some () else none

/-- Parses a run of 1..maxLen decimal digits. -/
def parseNum (maxLen : Nat) (l : List Char) : Option (Nat × List Char) :=
  let p := splitDigits l
  if p.1.length = 0 || decide (maxLen < p.1.length) then none
  else some (digitsToNat p.1, p.2)

/-- Parses `%d %b %Y` (day, month number 1..12, year) plus the trailing
space, returning the remaining input. -/
def parseDMY (l : List Char) : Option ((Nat × Nat × Nat) × List Char) := do
  let (d, l) ← parseNum 2 l
  let l ← stripLit [' '] l
  let (mi, l) ← matchName monthNames 0 l
  let l ← stripLit [' '] l
  let (y, l) ← parseNum 4 l
  some ((d, mi + 1, y), l)

/-- Parses `%H:%M:%S`, returning the remaining input. -/
def parseHMS (l : List Char) : Option ((Nat × Nat × Nat) × List Char) := do
  let (hh, l) ← parseNum 2 l
  let l ← stripLit [':'] l
  let (mm, l) ← parseNum 2 l
  let l ← stripLit [':'] l
  let (ss, l) ← parseNum 2 l
  some ((hh, mm, ss), l)

/-- Embedding of `parse_http_date` (i.e. `time.strptime` with format
`'%a, %d %b %Y %H:%M:%S %Z'` followed by the `datetime` constructor),
returning the parsed instant in microseconds since the epoch, or `none`
where the source raises `ValueError`.  The timezone grammar accepts the
`GMT` and `UTC` literals.  Divergence note: dates before 1970 are treated
as unparseable here (the modelled clock is a natural number); no claim
depends on pre-epoch dates. -/
def parseHttpDate (s : String) : Option Nat := do
  let (_, l) ← matchName weekdayNames 0 s.data
  let l ← stripLit [',', ' '] l
  let (dmy, l) ← parseDMY l
  let l ← stripLit [' '] l
  let (hms, l) ← parseHMS l
  let l ← stripLit [' '] l
  let l ← stripLit ("GMT".data) l <|> stripLit ("UTC".data) l
  let _ ← ensure (l.isEmpty && decide (1 ≤ dmy.1) && decide (dmy.1 ≤ 31)
    && decide (1970 ≤ dmy.2.2) && decide (hms.1 ≤ 23) && decide (hms.2.1 ≤ 59)
    && decide (hms.2.2 ≤ 59))
  some ((daysFromCivil dmy.2.2 dmy.2.1 dmy.1 * 86400 + hms.1 * 3600 +
    hms.2.1 * 60 + hms.2.2) * usPerSec)

/-! ### Exceptions and basic record types -/

/-- Exceptions the cache core can raise: the source's `ConsistencyError`
and the `ValueError` raised by date parsing. -/
inductive PyExn where
  | consistencyError
  | valueError
deriving DecidableEq

deriving instance DecidableEq for Except

/-- Embedding of module-level `parse_http_date`: raises `ValueError`
(strptime) on malformed input. -/
def parse_http_date (s : String) : Except PyExn Nat :=
  match parseHttpDate s with
  | some t => Except.ok t
  | none => Except.error PyExn.valueError

/-- Embedding of module-level `sha256_digest` (hashlib is an external
library; modelled as an injective stand-in for the digest bytes, since the
program only compares digests for equality). -/
def sha256_digest (content : String) : String := content

/-- Association-list lookup standing for a Python dict / header-mapping
membership test plus access. -/
def lookupHeader (headers : List (String × String)) (name : String) : Option String :=
  (headers.find? (fun hv => hv.1 == name)).map (fun hv => hv.2)

/-- Embedding of `WSGIRequest`: url, headers and arrival time. -/
structure WSGIRequest where
  url : String
  headers : List (String × String)
  time : Nat
deriving DecidableEq

/-- Embedding of `WSGIResponse`: a fresh instance has empty header and
content lists; `set_content_body` stores a single chunk. -/
structure WSGIResponse where
  status : String
  headers : List (String × String) := []
  content : List String := []
deriving DecidableEq

/-- Embedding of `WSGIResponse.from_internal_error`. -/
def WSGIResponse.from_internal_error : WSGIResponse :=
  { status := "500 Internal Server Error" }

/-- Embedding of a `requests` response object as seen by the cache core. -/
structure ServerResponse where
  status_code : Nat
  reason : String
  headers : List (String × String)
  content : String
deriving DecidableEq

/-- The `requests` library's `response.ok`: true iff the status code is
below 400. -/
def ServerResponse.ok (r : ServerResponse) : Bool := r.status_code < 400

/-- Embedding of `EntryMetadata`'s stored field set.  The Python object
keeps these in a dict and omits `fetched`, `last_modified` and
`content_key` on a reservation; the model gives those fields the inert
defaults 0 / "" there — no modelled operation reads them while
`valid = false` (the source would raise `KeyError`). -/
structure EntryMetadata where
  valid : Bool
  session : Nat
  url : String
  fetched : Nat := 0
  last_modified : String := ""
  sha256_digest : Option String
  reservation : Nat
  last_noted : Nat
  content_key : String := ""
deriving DecidableEq

/-- Embedding of the four serialized fields of a content record at rest in
the cache (`EntryContent.store_content` / `EntryContent.from_cache`). -/
structure StoredContent where
  status : String
  url : String
  headers : List (String × String)
  content : String
deriving DecidableEq

/-- Embedding of the in-memory `EntryContent` view: the stored fields plus
the content key it is stored under. -/
structure EntryContent where
  content_key : String
  status : String
  url : String
  headers : List (String × String)
  content : String
deriving DecidableEq

/-- The lazily computed `EntryContent.digest` property. -/
def EntryContent.digest (ce : EntryContent) : String := sha256_digest ce.content

/-- Embedding of `EntryContent.from_server_response`. -/
def EntryContent.from_server_response (response : ServerResponse) (url : String)
    (content_key : String) : EntryContent :=
  { content_key := content_key,
    status := Nat.repr response.status_code ++ " " ++ response.reason,
    url := url,
    headers := response.headers,
    content := response.content }

/-! ### Key derivation -/

/-- Embedding of `EntryMetadata.make_metadata_key`. -/
def make_metadata_key (url : String) : String := "metadata_" ++ url

/-- The six zero-padded fractional digits produced by the `"%f"` format
for a microsecond fraction r < 1000000. -/
def microDigits (r : Nat) : List Char :=
  [Nat.digitChar (r / 100000 % 10), Nat.digitChar (r / 10000 % 10),
   Nat.digitChar (r / 1000 % 10), Nat.digitChar (r / 100 % 10),
   Nat.digitChar (r / 10 % 10), Nat.digitChar (r % 10)]

/-- Rendering of a microsecond instant by the `"%f"` format: integral
seconds, a dot, and exactly six fractional digits. -/
def fmtMicros (s : Nat) : String :=
  Nat.repr (s / usPerSec) ++ "." ++ String.mk (microDigits (s % usPerSec))

/-- Embedding of `EntryMetadata.make_content_key`: the
`"body_%s_%f-%d"` format applied to the url and the reservation token
`(session, reservation)`. -/
def make_content_key (url : String) (reservation_token : Nat × Nat) : String :=
  "body_" ++ url ++ "_" ++ fmtMicros reservation_token.1 ++ "-" ++
    Nat.repr reservation_token.2

/-! ### Metadata operations -/

/-- Embedding of `EntryMetadata.new_reservation`: a placeholder inserted
when no metadata entry exists, created at wall-clock instant `now`. -/
def EntryMetadata.new_reservation (now : Nat) (url : String) : EntryMetadata :=
  { valid := false,
    url := url,
    sha256_digest := none,
    session := now,
    reservation := 1,
    last_noted := 0 }

/-- The reservation increment performed by `update_reservation` on a
metadata entry read from cache (`cache_metadata.reservation += 1`). -/
def EntryMetadata.reservation_bump (md : EntryMetadata) : EntryMetadata :=
  { md with reservation := md.reservation + 1 }

/-- Embedding of `EntryMetadata.time_or_last_modified_header`: the given
instant, or the content entry's Last-Modified header, whichever is older,
rendered as an HTTP date; raises `ValueError` when the header is present
but malformed. -/
def EntryMetadata.time_or_last_modified_header (unixtime : Nat)
    (content_entry : EntryContent) : Except PyExn String :=
  match lookupHeader content_entry.headers "Last-Modified" with
  | some last_modified =>
    match parseHttpDate last_modified with
    | some header_time => Except.ok (make_http_date (min unixtime header_time))
    | none => Except.error PyExn.valueError
  | none => Except.ok (make_http_date unixtime)

/-- Embedding of `EntryMetadata.from_server_response`, building a fresh
valid metadata at wall-clock instant `now` (the source's `unixtime()`,
assigned to both `fetched` and `session`). -/
def EntryMetadata.from_server_response (now : Nat) (url : String)
    (content_entry : EntryContent) : Except PyExn EntryMetadata :=
  (EntryMetadata.time_or_last_modified_header now content_entry).map fun lm =>
    { valid := true,
      url := url,
      fetched := now,
      session := now,
      last_modified := lm,
      sha256_digest := some content_entry.digest,
      reservation := 0,
      last_noted := 0,
      content_key := content_entry.content_key }

/-- Embedding of `EntryMetadata.update_for_server_response` at wall-clock
instant `now`: updates `fetched`, `last_noted`, `valid` and `content_key`
unconditionally, and additionally `last_modified` and `sha256_digest`
when the new content's digest differs from the stored one. -/
def EntryMetadata.update_for_server_response (md : EntryMetadata) (now : Nat)
    (content_entry : EntryContent) : Except PyExn EntryMetadata :=
  let common : EntryMetadata :=
    { md with
      fetched := now
      last_noted := md.reservation
      valid := true
      content_key := content_entry.content_key }
  if md.sha256_digest == some content_entry.digest then
    Except.ok common
  else
    (EntryMetadata.time_or_last_modified_header now content_entry).map fun lm =>
      { common with
        last_modified := lm
        sha256_digest := some content_entry.digest }

/-! ### The KV store -/

/-- A value at rest in the KV store: a metadata mapping or a content
mapping (distinguished in the source only by key convention). -/
inductive KVValue where
  | meta (md : EntryMetadata)
  | body (sc : StoredContent)
deriving DecidableEq

/-- A snapshot of the KV store's contents. -/
def Store : Type := String → Option KVValue

/-- Reads a metadata entry from a store snapshot
(`EntryMetadata.from_cache_or_none`). -/
def getMeta (store : Store) (key : String) : Option EntryMetadata :=
  match store key with
  | some (KVValue.meta md) => some md
  | _ => none

/-- Reads a content record from a store snapshot
(`EntryContent.from_cache` / the lazy `content_entry` property). -/
def getBody (store : Store) (key : String) : Option StoredContent :=
  match store key with
  | some (KVValue.body sc) => some sc
  | _ => none

/-- KV operations performed by the update protocol, as an observable
trace (values elided; the claims only inspect which keys are written,
deleted, or stored). -/
inductive KVOp where
  | set (key : String)
  | delete (key : String)
  | metaWrite (key : String)
deriving DecidableEq

/-! ### Response building and the serve-from-cache predicate -/

/-- Body of `WSGIResponse.from_cache_metadata` once the content record is
in hand: content status and headers minus `drop_headers`, with a single
synthesized Last-Modified header prepended, and the content as a single
body chunk. -/
def responseFromParts (last_modified : String) (sc : StoredContent) : WSGIResponse :=
  { status := sc.status,
    headers := ("Last-Modified", last_modified) ::
      (sc.headers.filter fun hv => !(drop_headers.contains hv.1)),
    content := [sc.content] }

/-- Embedding of `WSGIResponse.from_cache_metadata`: builds a response
from a metadata and its lazily loaded content record.  When the content
record is absent from the store the source dereferences `None`
(`AttributeError`); that failure is modelled as `none`. -/
def WSGIResponse.from_cache_metadata (store : Store) (md : EntryMetadata) :
    Option WSGIResponse :=
  (getBody store md.content_key).map (responseFromParts md.last_modified)

/-- Embedding of `check_for_cache_response` applied to an already loaded
metadata entry (the source's optional `cache_metadata` argument). -/
def check_with_metadata (store : Store) (req : WSGIRequest)
    (md : EntryMetadata) : Except PyExn (Option WSGIResponse) :=
  if !md.valid then Except.ok none
  else if req.time > md.fetched + EXPIRE_SECS * usPerSec then Except.ok none
  else
    match lookupHeader req.headers "If-Modified-Since" with
    | some ims =>
      match parseHttpDate ims with
      | none => Except.error PyExn.valueError
      | some client_time =>
        match parseHttpDate md.last_modified with
        | none => Except.error PyExn.valueError
        | some cache_time =>
          if client_time ≥ cache_time then
            Except.ok (some { status := "304 Not Modified" })
          else
            Except.ok (WSGIResponse.from_cache_metadata store md)
    | none => Except.ok (WSGIResponse.from_cache_metadata store md)

/-- Embedding of `check_for_cache_response` with no pre-fetched metadata:
loads the metadata from the store first. -/
def check_for_cache_response (store : Store) (req : WSGIRequest) :
    Except PyExn (Option WSGIResponse) :=
  match getMeta store (make_metadata_key req.url) with
  | none => Except.ok none
  | some md => check_with_metadata store req md

/-! ### The reservation loop

Each loop iteration performs one `gets` and one `store_metadata`
(cas-or-add).  Concurrency is modelled by an adversarial environment: per
iteration it supplies the metadata snapshot that `gets` observes, the
current wall-clock time, and the outcome of the write attempt.  In
`store_metadata`, when a CAS token is held, the cas is tried first; a
`pylibmc.NotFound` (entry evicted since the read) falls through to a
single `add` attempt; without a token only `add` is tried. -/

/-- One iteration's environment for `update_reservation`: the metadata
that `gets` returns (if any), the wall clock, whether a tried cas
succeeds, whether it raises `NotFound`, and whether a tried add
succeeds. -/
structure ResIter where
  found : Option EntryMetadata
  now : Nat
  casOk : Bool
  casNotFound : Bool
  addOk : Bool

/-- Whether this iteration's `store_metadata` call returns true: with a
CAS token (entry was found), cas succeeds, or raises `NotFound` and the
fallback add succeeds; without a token, add succeeds. -/
def res_store_ok (e : ResIter) : Bool :=
  match e.found with
  | some _ => if e.casNotFound then e.addOk else e.casOk
  | none => e.addOk

/-- The metadata value this iteration attempts to write: the read entry
with its reservation bumped, or a brand-new reservation. -/
def res_attempt_value (url : String) (e : ResIter) : EntryMetadata :=
  match e.found with
  | some md => md.reservation_bump
  | none => EntryMetadata.new_reservation e.now url

/-- The loop body of `update_reservation`, with `fuel` iterations
remaining; returns the committed metadata and the `won` flag on the first
successful write, and raises `ConsistencyError` when the fuel is
exhausted. -/
def update_reservation_go (url : String) :
    Nat → (Nat → ResIter) → Except PyExn (EntryMetadata × Bool)
  | 0, _ => Except.error PyExn.consistencyError
  | fuel + 1, env =>
    let e := env 0
    let md := res_attempt_value url e
    if res_store_ok e then
      Except.ok (md, md.reservation == md.last_noted + 1)
    else
      update_reservation_go url fuel (fun i => env (i + 1))

/-- Embedding of `update_reservation`: at most `UPDATE_MAX_ATTEMPTS`
iterations of read-modify-write. -/
def update_reservation (url : String) (env : Nat → ResIter) :
    Except PyExn (EntryMetadata × Bool) :=
  update_reservation_go url UPDATE_MAX_ATTEMPTS env

/-! ### The update-cache protocol -/

/-- One iteration's environment for the `update_cache` loop: the store
snapshot this iteration observes (used both by `gets` on the metadata key
and by the serve-from-cache re-check), the wall clock, and the write
outcomes as in `ResIter`. -/
structure UCIter where
  snapshot : Store
  now : Nat
  casOk : Bool
  casNotFound : Bool
  addOk : Bool

/-- The loop body of `update_cache`: per iteration, re-read the metadata;
if the serve-from-cache predicate already accepts it, delete our content
record and return the parallel winner's metadata; otherwise mutate it (or
build a fresh one) from the server response and try to commit. -/
def update_cache_go (req : WSGIRequest) (content_entry : EntryContent) :
    Nat → (Nat → UCIter) → Except PyExn (EntryMetadata × List KVOp)
  | 0, _ => Except.error PyExn.consistencyError
  | fuel + 1, env =>
    let e := env 0
    match getMeta e.snapshot (make_metadata_key req.url) with
    | some md =>
      (check_with_metadata e.snapshot req md).bind fun servable =>
      match servable with
      | some _ => Except.ok (md, [KVOp.delete content_entry.content_key])
      | none =>
        (md.update_for_server_response e.now content_entry).bind fun md' =>
        if (if e.casNotFound then e.addOk else e.casOk) then
          Except.ok (md', [KVOp.metaWrite (make_metadata_key req.url)])
        else
          update_cache_go req content_entry fuel (fun i => env (i + 1))
    | none =>
      (EntryMetadata.from_server_response e.now req.url content_entry).bind fun md' =>
      if e.addOk then
        Except.ok (md', [KVOp.metaWrite (make_metadata_key req.url)])
      else
        update_cache_go req content_entry fuel (fun i => env (i + 1))

/-- Embedding of `update_cache`.  `now0` is the wall clock at entry (used
when building the virtual metadata on the drop branch), `setOk` the
outcome of `store_content`'s `set`, and `env` the per-iteration
environments of the commit loop.  Returns the metadata handed back to the
caller together with the trace of content-key/metadata-key effects. -/
def update_cache (req : WSGIRequest) (server_response : ServerResponse)
    (reservation_token : Nat × Nat) (now0 : Nat) (setOk : Bool)
    (env : Nat → UCIter) : Except PyExn (EntryMetadata × List KVOp) :=
  let content_entry := EntryContent.from_server_response server_response req.url
    (make_content_key req.url reservation_token)
  if DROP_NOT_OK_STATUS && !server_response.ok then
    (EntryMetadata.from_server_response now0 req.url content_entry).map fun md =>
      (md, [KVOp.delete (make_metadata_key req.url)])
  else if !setOk then
    Except.error PyExn.consistencyError
  else
    (update_cache_go req content_entry UPDATE_MAX_ATTEMPTS env).map fun r =>
      (r.1, KVOp.set content_entry.content_key :: r.2)

/-! ### The orchestrator boundary -/

/-- Embedding of `handle_application`'s exception boundary: the outcome
of `handle_request` (a response, or a raised exception) is converted to
the outgoing response; `ConsistencyError` — and only `ConsistencyError` —
is caught and turned into the internal-error response, while any other
exception propagates to the enclosing transport. -/
def handle_application (outcome : Except PyExn WSGIResponse) :
    Except PyExn WSGIResponse :=
  match outcome with
  | Except.error PyExn.consistencyError =>
    Except.ok WSGIResponse.from_internal_error
  | o => o

/-- Whether an `update_cache` loop iteration makes no progress: the
metadata it reads is not yet servable, the in-place update succeeds
without raising, but the metadata write attempt fails (or no metadata is
found and the `add` of a fresh entry fails).  Under such an iteration the
loop must retry. -/
def uc_iter_blocked (req : WSGIRequest) (content_entry : EntryContent)
    (e : UCIter) : Bool :=
  match getMeta e.snapshot (make_metadata_key req.url) with
  | some md =>
    match check_with_metadata e.snapshot req md with
    | Except.ok none =>
      match md.update_for_server_response e.now content_entry with
      | Except.ok _ => !(if e.casNotFound then e.addOk else e.casOk)
      | Except.error _ => false
    | _ => false
  | none =>
    match EntryMetadata.from_server_response e.now req.url content_entry with
    | Except.ok _ => !e.addOk
    | Except.error _ => false

/-! ### Claims -/

/-- C4: every metadata value the program writes — a fresh reservation
insert or a reservation bump in `update_reservation` (both captured by
`res_attempt_value`), a metadata built from a server response, or an
in-place `update_for_server_response` — satisfies
`last_noted ≤ reservation` (given, for the bump, that the entry read from
the store already satisfied it). -/
theorem metadata_writes_satisfy_last_noted_le_reservation :
    (∀ url e, (∀ md0, e.found = some md0 → md0.last_noted ≤ md0.reservation) →
      (res_attempt_value url e).last_noted ≤ (res_attempt_value url e).reservation) ∧
    (∀ now url ce md, EntryMetadata.from_server_response now url ce = Except.ok md →
      md.last_noted ≤ md.reservation) ∧
    (∀ (md0 : EntryMetadata) now ce md,
      md0.update_for_server_response now ce = Except.ok md →
      md.last_noted ≤ md.reservation) := by
  refine ⟨?_, ?_, ?_⟩
  · intro url e h
    unfold res_attempt_value
    cases hf : e.found with
    | some md0 =>
      have := h md0 hf
      simp [EntryMetadata.reservation_bump]
      omega
    | none => simp [EntryMetadata.new_reservation]
  · intro now url ce md h
    unfold EntryMetadata.from_server_response at h
    cases htime : EntryMetadata.time_or_last_modified_header now ce with
    | ok lm => rw [htime] at h; simp [Except.map] at h; subst h; simp
    | error e => rw [htime] at h; simp [Except.map] at h
  · intro md0 now ce md h
    unfold EntryMetadata.update_for_server_response at h
    by_cases hd : (md0.sha256_digest == some ce.digest) = true
    · simp only [hd, if_pos] at h
      simp at h
      subst h
      simp
    · simp only [hd] at h
      simp at h
      cases htime : EntryMetadata.time_or_last_modified_header now ce with
      | ok lm => rw [htime] at h; simp [Except.map] at h; subst h; simp
      | error e => rw [htime] at h; simp [Except.map] at h

/-- Witness for the invariant theorem at concrete inputs. -/
theorem metadata_writes_satisfy_last_noted_le_reservation_witness :
    (res_attempt_value "/u"
      { found := none, now := 3, casOk := true, casNotFound := false,
        addOk := true }).last_noted ≤
    (res_attempt_value "/u"
      { found := none, now := 3, casOk := true, casNotFound := false,
        addOk := true }).reservation :=
  metadata_writes_satisfy_last_noted_le_reservation.1 "/u"
    { found := none, now := 3, casOk := true, casNotFound := false,
      addOk := true }
    (by intro md0 h; cases h)

/-- C7: when `update_for_server_response` is applied to a metadata whose
stored digest equals the new content's digest, `last_modified` and
`sha256_digest` are left unchanged while `fetched`, `last_noted`, `valid`
and `content_key` are updated — `content_key` being rewritten to the new
content's key even in this digest-match case. -/
theorem update_for_server_response_digest_match (md : EntryMetadata)
    (now : Nat) (ce : EntryContent)
    (h : md.sha256_digest = some ce.digest) :
    ∃ md', md.update_for_server_response now ce = Except.ok md' ∧
      md'.last_modified = md.last_modified ∧
      md'.sha256_digest = md.sha256_digest ∧
      md'.fetched = now ∧
      md'.last_noted = md.reservation ∧
      md'.valid = true ∧
      md'.content_key = ce.content_key := by
  refine ⟨{ md with fetched := now, last_noted := md.reservation, valid := true, content_key := ce.content_key }, ?_, ?_, ?_, ?_, ?_, ?_, ?_⟩ <;>
    simp [EntryMetadata.update_for_server_response, h]

/-- Witness for the digest-match frame theorem at concrete inputs. -/
theorem update_for_server_response_digest_match_witness :
    ({ valid := true, session := 0, url := "/u", fetched := 0,
       last_modified := "Thu, 01 Jan 1970 00:00:00 GMT",
       sha256_digest := some "stuff", reservation := 2, last_noted := 1,
       content_key := "body_/u_0.000000-1" } : EntryMetadata).sha256_digest =
      some (EntryContent.digest
        { content_key := "body_/u_0.000000-2", status := "200 OK",
          url := "/u", headers := [], content := "stuff" }) ∧
    ∃ md', EntryMetadata.update_for_server_response
      { valid := true, session := 0, url := "/u", fetched := 0,
        last_modified := "Thu, 01 Jan 1970 00:00:00 GMT",
        sha256_digest := some "stuff", reservation := 2, last_noted := 1,
        content_key := "body_/u_0.000000-1" } 7000000
      { content_key := "body_/u_0.000000-2", status := "200 OK",
        url := "/u", headers := [], content := "stuff" } = Except.ok md' ∧
      md'.last_modified = "Thu, 01 Jan 1970 00:00:00 GMT" ∧
      md'.sha256_digest = some "stuff" ∧
      md'.fetched = 7000000 ∧
      md'.last_noted = 2 ∧
      md'.valid = true ∧
      md'.content_key = "body_/u_0.000000-2" :=
  ⟨by decide,
   update_for_server_response_digest_match _ 7000000 _ (by decide)⟩

/-- C8: the derived `last_modified` is the minimum of `now` and the
parsed Last-Modified header when the header is present (and parseable),
and `now` itself when the header is absent, rendered by `make_http_date`
(the strftime format `'%a, %d %b %Y %H:%M:%S GMT'` in GMT). -/
theorem time_or_last_modified_header_is_min (t : Nat) (ce : EntryContent) :
    (∀ s lm, lookupHeader ce.headers "Last-Modified" = some s →
      parseHttpDate s = some lm →
      EntryMetadata.time_or_last_modified_header t ce =
        Except.ok (make_http_date (min t lm))) ∧
    (lookupHeader ce.headers "Last-Modified" = none →
      EntryMetadata.time_or_last_modified_header t ce =
        Except.ok (make_http_date t)) := by
  constructor
  · intro s lm hs hp
    simp [EntryMetadata.time_or_last_modified_header, hs, hp]
  · intro hs
    simp [EntryMetadata.time_or_last_modified_header, hs]

/-- Witness for the `last_modified` derivation theorem: a concrete header
older than `now` is chosen, and a concrete run with no header falls back
to `now`; both render through `make_http_date`. -/
theorem time_or_last_modified_header_is_min_witness :
    lookupHeader [("Last-Modified", "Sun, 06 Nov 1994 08:49:37 GMT")]
      "Last-Modified" = some "Sun, 06 Nov 1994 08:49:37 GMT" ∧
    parseHttpDate "Sun, 06 Nov 1994 08:49:37 GMT" = some 784111777000000 ∧
    EntryMetadata.time_or_last_modified_header 800000000000000
      { content_key := "k", status := "200 OK", url := "/u",
        headers := [("Last-Modified", "Sun, 06 Nov 1994 08:49:37 GMT")],
        content := "stuff" } =
      Except.ok (make_http_date (min 800000000000000 784111777000000)) :=
  ⟨by decide, by decide,
   (time_or_last_modified_header_is_min 800000000000000
     { content_key := "k", status := "200 OK", url := "/u",
       headers := [("Last-Modified", "Sun, 06 Nov 1994 08:49:37 GMT")],
       content := "stuff" }).1
     "Sun, 06 Nov 1994 08:49:37 GMT" 784111777000000 (by decide) (by decide)⟩

/-- Helper: any successful return of the reservation loop carries
`won = (reservation == last_noted + 1)` computed on the returned
metadata. -/
theorem update_reservation_go_won (url : String) :
    ∀ (fuel : Nat) (env : Nat → ResIter) (md : EntryMetadata) (won : Bool),
      update_reservation_go url fuel env = Except.ok (md, won) →
      won = (md.reservation == md.last_noted + 1) := by
  intro fuel
  induction fuel with
  | zero => intro env md won h; simp [update_reservation_go] at h
  | succ n ih =>
    intro env md won h
    unfold update_reservation_go at h
    by_cases hs : res_store_ok (env 0) = true
    · simp [hs] at h
      obtain ⟨h1, h2⟩ := h
      subst h1
      exact h2.symm
    · simp [hs] at h
      exact ih _ md won h

/-- C1: whenever `update_reservation` returns on a successful write, the
`won` flag is true exactly when the committed metadata satisfies
`reservation = last_noted + 1`; and when the first iteration finds no
metadata and its `add` succeeds, the brand-new reservation
(`reservation = 1`, `last_noted = 0`) is returned with `won = true`. -/
theorem update_reservation_won_iff (url : String) :
    (∀ env md won, update_reservation url env = Except.ok (md, won) →
      (won = true ↔ md.reservation = md.last_noted + 1)) ∧
    (∀ env, (env 0).found = none → (env 0).addOk = true →
      update_reservation url env =
        Except.ok (EntryMetadata.new_reservation (env 0).now url, true) ∧
      (EntryMetadata.new_reservation (env 0).now url).reservation = 1 ∧
      (EntryMetadata.new_reservation (env 0).now url).last_noted = 0) := by
  constructor
  · intro env md won h
    have := update_reservation_go_won url UPDATE_MAX_ATTEMPTS env md won h
    subst this
    simp
  · intro env hf ha
    refine ⟨?_, rfl, rfl⟩
    show update_reservation_go url 20 env = _
    unfold update_reservation_go
    simp [res_store_ok, res_attempt_value, hf, ha, EntryMetadata.new_reservation]

/-- Witness for the reservation-win theorem: one concrete environment in
which the first iteration bumps an existing entry and wins, and one in
which a fresh reservation is inserted. -/
theorem update_reservation_won_iff_witness :
    (true = true ↔ (2 : Nat) = 1 + 1) ∧
    update_reservation "/u" (fun _ => { found := none, now := 5, casOk := false, casNotFound := false, addOk := true }) =
      Except.ok (EntryMetadata.new_reservation 5 "/u", true) := by
  constructor
  · exact (update_reservation_won_iff "/u").1
      (fun _ => { found := some { valid := true, session := 0, url := "/u", sha256_digest := some "s", reservation := 1, last_noted := 1 }, now := 5, casOk := true, casNotFound := false, addOk := false })
      { valid := true, session := 0, url := "/u", sha256_digest := some "s", reservation := 2, last_noted := 1 } true rfl
  · exact ((update_reservation_won_iff "/u").2
      (fun _ => { found := none, now := 5, casOk := false, casNotFound := false, addOk := true }) rfl rfl).1

/-- Helper: if every remaining iteration's metadata write fails, the
reservation loop exhausts its fuel and raises `ConsistencyError`. -/
theorem update_reservation_go_all_fail (url : String) :
    ∀ (fuel : Nat) (env : Nat → ResIter),
      (∀ i, i < fuel → res_store_ok (env i) = false) →
      update_reservation_go url fuel env = Except.error PyExn.consistencyError := by
  intro fuel
  induction fuel with
  | zero => intro env _; rfl
  | succ n ih =>
    intro env h
    have h0 : res_store_ok (env 0) = false := h 0 (Nat.succ_pos n)
    unfold update_reservation_go
    simp [h0]
    exact ih (fun i => env (i + 1)) (fun i hi => h (i + 1) (Nat.succ_lt_succ hi))

/-- Helper: if every remaining iteration of the `update_cache` loop is
blocked, the loop exhausts its fuel and raises `ConsistencyError`. -/
theorem update_cache_go_all_blocked (req : WSGIRequest) (ce : EntryContent) :
    ∀ (fuel : Nat) (env : Nat → UCIter),
      (∀ i, i < fuel → uc_iter_blocked req ce (env i) = true) →
      update_cache_go req ce fuel env = Except.error PyExn.consistencyError := by
  intro fuel
  induction fuel with
  | zero => intro env _; rfl
  | succ n ih =>
    intro env h
    have h0 : uc_iter_blocked req ce (env 0) = true := h 0 (Nat.succ_pos n)
    have hrec := ih (fun i => env (i + 1)) (fun i hi => h (i + 1) (Nat.succ_lt_succ hi))
    unfold update_cache_go
    cases hm : getMeta (env 0).snapshot (make_metadata_key req.url) with
    | none =>
      cases hf : EntryMetadata.from_server_response (env 0).now req.url ce with
      | ok md' =>
        have haddOk : (env 0).addOk = false := by
          simp [uc_iter_blocked, hm, hf] at h0
          simpa using h0
        simp [hm, hf, Except.bind, haddOk]
        exact hrec
      | error e => simp [uc_iter_blocked, hm, hf] at h0
    | some md =>
      cases hc : check_with_metadata (env 0).snapshot req md with
      | ok servable =>
        cases servable with
        | some r => simp [uc_iter_blocked, hm, hc] at h0
        | none =>
          cases hu : md.update_for_server_response (env 0).now ce with
          | ok md' =>
            have hw : (if (env 0).casNotFound then (env 0).addOk else (env 0).casOk) = false := by
              simp [uc_iter_blocked, hm, hc, hu] at h0
              simpa using h0
            simp [hm, hc, hu, Except.bind, hw]
            exact hrec
          | error e => simp [uc_iter_blocked, hm, hc, hu] at h0
      | error e => simp [uc_iter_blocked, hm, hc] at h0

/-- C5: `UPDATE_MAX_ATTEMPTS` is 20; when every iteration's metadata
write fails, `update_reservation` raises `ConsistencyError`, and when
every `update_cache` loop iteration is blocked (for an OK response whose
content was stored), `update_cache` raises `ConsistencyError`; the
orchestrator boundary converts exactly that exception into the
`500 Internal Server Error` response with empty body, passing successful
responses and any other exception through unchanged. -/
theorem consistency_exhaustion_becomes_500 :
    UPDATE_MAX_ATTEMPTS = 20 ∧
    (∀ url env, (∀ i, i < UPDATE_MAX_ATTEMPTS → res_store_ok (env i) = false) →
      update_reservation url env = Except.error PyExn.consistencyError) ∧
    (∀ req resp token now0 env, resp.ok = true →
      (∀ i, i < UPDATE_MAX_ATTEMPTS →
        uc_iter_blocked req
          (EntryContent.from_server_response resp req.url
            (make_content_key req.url token)) (env i) = true) →
      update_cache req resp token now0 true env =
        Except.error PyExn.consistencyError) ∧
    (handle_application (Except.error PyExn.consistencyError) =
        Except.ok WSGIResponse.from_internal_error ∧
      WSGIResponse.from_internal_error.status = "500 Internal Server Error" ∧
      WSGIResponse.from_internal_error.headers = [] ∧
      WSGIResponse.from_internal_error.content = []) ∧
    (∀ r, handle_application (Except.ok r) = Except.ok r) ∧
    handle_application (Except.error PyExn.valueError) =
      Except.error PyExn.valueError := by
  refine ⟨rfl, ?_, ?_, ⟨rfl, rfl, rfl, rfl⟩, fun r => rfl, rfl⟩
  · intro url env h
    exact update_reservation_go_all_fail url UPDATE_MAX_ATTEMPTS env h
  · intro req resp token now0 env hok h
    unfold update_cache
    simp [hok]
    rw [update_cache_go_all_blocked req _ UPDATE_MAX_ATTEMPTS env h]
    rfl

/-- Witness for the contention-exhaustion theorem: concrete environments
in which every write attempt fails drive both loops into
`ConsistencyError`. -/
theorem consistency_exhaustion_becomes_500_witness :
    update_reservation "/u" (fun _ => { found := some { valid := true, session := 0, url := "/u", sha256_digest := some "s", reservation := 1, last_noted := 1 }, now := 0, casOk := false, casNotFound := false, addOk := false }) = Except.error PyExn.consistencyError ∧
    update_cache { url := "/u", headers := [], time := 0 } { status_code := 200, reason := "OK", headers := [], content := "stuff" } (0, 1) 0 true (fun _ => { snapshot := fun k => if k = "metadata_/u" then some (KVValue.meta { valid := false, session := 0, url := "/u", sha256_digest := none, reservation := 1, last_noted := 0 }) else none, now := 0, casOk := false, casNotFound := false, addOk := false }) = Except.error PyExn.consistencyError := by
  constructor
  · exact consistency_exhaustion_becomes_500.2.1 "/u" _ (fun i _ => rfl)
  · exact consistency_exhaustion_becomes_500.2.2.1 _ _ (0, 1) 0 _ rfl (fun i _ => rfl)

/-- C3 (amended): when `DROP_NOT_OK_STATUS` holds and the origin response
is not OK, `update_cache` performs exactly one KV operation — deleting
the metadata key — stores no content record, and returns a virtual
metadata built from the response whose `session` is the wall-clock time
at which it is built (`unixtime()` inside
`EntryMetadata.from_server_response`), not the session component of the
reservation token; the token's session appears only in the virtual
metadata's `content_key`. -/
theorem update_cache_drop_branch (req : WSGIRequest) (resp : ServerResponse)
    (token : Nat × Nat) (now0 : Nat) (setOk : Bool) (env : Nat → UCIter)
    (md : EntryMetadata)
    (hok : resp.ok = false)
    (hbuild : EntryMetadata.from_server_response now0 req.url
      (EntryContent.from_server_response resp req.url
        (make_content_key req.url token)) = Except.ok md) :
    update_cache req resp token now0 setOk env =
      Except.ok (md, [KVOp.delete (make_metadata_key req.url)]) ∧
    md.session = now0 ∧
    md.content_key = make_content_key req.url token ∧
    (∀ k, KVOp.set k ∉ ([KVOp.delete (make_metadata_key req.url)] : List KVOp)) := by
  have hsession : md.session = now0 := by
    unfold EntryMetadata.from_server_response at hbuild
    cases htime : EntryMetadata.time_or_last_modified_header now0
        (EntryContent.from_server_response resp req.url
          (make_content_key req.url token)) with
    | ok lm => rw [htime] at hbuild; simp [Except.map] at hbuild; subst hbuild; rfl
    | error e => rw [htime] at hbuild; simp [Except.map] at hbuild
  have hck : md.content_key = make_content_key req.url token := by
    unfold EntryMetadata.from_server_response at hbuild
    cases htime : EntryMetadata.time_or_last_modified_header now0
        (EntryContent.from_server_response resp req.url
          (make_content_key req.url token)) with
    | ok lm => rw [htime] at hbuild; simp [Except.map] at hbuild; subst hbuild; rfl
    | error e => rw [htime] at hbuild; simp [Except.map] at hbuild
  refine ⟨?_, hsession, hck, by simp⟩
  unfold update_cache
  simp [hok, DROP_NOT_OK_STATUS, hbuild, Except.map]

/-- C3 counterexample: at a concrete not-OK response with reservation
token session 5000000 but wall clock 9000000, the returned virtual
metadata's `session` is 9000000, not the token's 5000000 — refuting the
claim that it equals the session component of the token. -/
theorem update_cache_drop_branch_session_counterexample :
    (update_cache { url := "/u", headers := [], time := 0 } { status_code := 500, reason := "UNAVAILABLE", headers := [], content := "" } (5000000, 1) 9000000 true (fun _ => { snapshot := fun _ => none, now := 9000000, casOk := false, casNotFound := false, addOk := false })).map (fun r => r.1.session) = Except.ok 9000000 ∧
    (9000000 : Nat) ≠ 5000000 := by
  constructor
  · rfl
  · decide

/-- Witness for the drop-branch theorem at the same concrete inputs. -/
theorem update_cache_drop_branch_witness :
    update_cache { url := "/u", headers := [], time := 0 } { status_code := 500, reason := "UNAVAILABLE", headers := [], content := "" } (5000000, 1) 9000000 true (fun _ => { snapshot := fun _ => none, now := 9000000, casOk := false, casNotFound := false, addOk := false }) =
      Except.ok ({ valid := true, session := 9000000, url := "/u", fetched := 9000000, last_modified := make_http_date 9000000, sha256_digest := some "", reservation := 0, last_noted := 0, content_key := make_content_key "/u" (5000000, 1) }, [KVOp.delete (make_metadata_key "/u")]) ∧
    (9000000 : Nat) = 9000000 := by
  constructor
  · exact (update_cache_drop_branch { url := "/u", headers := [], time := 0 } { status_code := 500, reason := "UNAVAILABLE", headers := [], content := "" } (5000000, 1) 9000000 true (fun _ => { snapshot := fun _ => none, now := 9000000, casOk := false, casNotFound := false, addOk := false }) { valid := true, session := 9000000, url := "/u", fetched := 9000000, last_modified := make_http_date 9000000, sha256_digest := some "", reservation := 0, last_noted := 0, content_key := make_content_key "/u" (5000000, 1) } rfl rfl).1
  · rfl

/-- C2: `check_for_cache_response` implements exactly the five-rule
decision order: not servable when the metadata is absent, invalid, or
expired; a bare `304 Not Modified` (status only, no headers, no body)
when a parseable If-Modified-Since is at least the cached Last-Modified;
otherwise a 200 response built from the content record when it is
present, and not servable when it is absent. -/
theorem check_for_cache_response_decision_order (store : Store) (req : WSGIRequest) :
    (getMeta store (make_metadata_key req.url) = none →
      check_for_cache_response store req = Except.ok none) ∧
    (∀ md, getMeta store (make_metadata_key req.url) = some md →
      md.valid = false →
      check_for_cache_response store req = Except.ok none) ∧
    (∀ md, getMeta store (make_metadata_key req.url) = some md →
      md.valid = true →
      req.time > md.fetched + EXPIRE_SECS * usPerSec →
      check_for_cache_response store req = Except.ok none) ∧
    (∀ md s ct mt, getMeta store (make_metadata_key req.url) = some md →
      md.valid = true →
      req.time ≤ md.fetched + EXPIRE_SECS * usPerSec →
      lookupHeader req.headers "If-Modified-Since" = some s →
      parseHttpDate s = some ct →
      parseHttpDate md.last_modified = some mt →
      ct ≥ mt →
      check_for_cache_response store req =
        Except.ok (some { status := "304 Not Modified", headers := [], content := [] })) ∧
    (∀ md, getMeta store (make_metadata_key req.url) = some md →
      md.valid = true →
      req.time ≤ md.fetched + EXPIRE_SECS * usPerSec →
      (lookupHeader req.headers "If-Modified-Since" = none ∨
        (∃ s ct mt, lookupHeader req.headers "If-Modified-Since" = some s ∧
          parseHttpDate s = some ct ∧ parseHttpDate md.last_modified = some mt ∧
          ct < mt)) →
      (∀ sc, getBody store md.content_key = some sc →
        check_for_cache_response store req =
          Except.ok (some (responseFromParts md.last_modified sc))) ∧
      (getBody store md.content_key = none →
        check_for_cache_response store req = Except.ok none)) := by
  refine ⟨?_, ?_, ?_, ?_, ?_⟩
  · intro h
    unfold check_for_cache_response
    rw [h]
  · intro md h hv
    unfold check_for_cache_response
    rw [h]
    simp [check_with_metadata, hv]
  · intro md h hv hexp
    unfold check_for_cache_response
    rw [h]
    simp [check_with_metadata, hv, hexp]
  · intro md s ct mt h hv hle hs hct hmt hge
    have hnexp : ¬ (req.time > md.fetched + EXPIRE_SECS * usPerSec) := by omega
    unfold check_for_cache_response
    rw [h]
    simp [check_with_metadata, hv, hnexp, hs, hct, hmt, hge]
  · intro md h hv hle hdr
    have hnexp : ¬ (req.time > md.fetched + EXPIRE_SECS * usPerSec) := by omega
    constructor
    · intro sc hsc
      unfold check_for_cache_response
      rw [h]
      rcases hdr with hnone | ⟨s, ct, mt, hs, hct, hmt, hlt⟩
      · simp [check_with_metadata, hv, hnexp, hnone,
          WSGIResponse.from_cache_metadata, hsc]
      · have hnge : ¬ (ct ≥ mt) := by omega
        simp [check_with_metadata, hv, hnexp, hs, hct, hmt, hnge,
          WSGIResponse.from_cache_metadata, hsc]
    · intro hsc
      unfold check_for_cache_response
      rw [h]
      rcases hdr with hnone | ⟨s, ct, mt, hs, hct, hmt, hlt⟩
      · simp [check_with_metadata, hv, hnexp, hnone,
          WSGIResponse.from_cache_metadata, hsc]
      · have hnge : ¬ (ct ≥ mt) := by omega
        simp [check_with_metadata, hv, hnexp, hs, hct, hmt, hnge,
          WSGIResponse.from_cache_metadata, hsc]

/-- Witness for the decision-order theorem: a concrete fresh valid entry
and a matching If-Modified-Since produce the bare 304 response. -/
theorem check_for_cache_response_decision_order_witness :
    check_for_cache_response (fun k => if k = "metadata_/u" then some (KVValue.meta { valid := true, session := 0, url := "/u", fetched := 0, last_modified := "Thu, 01 Jan 1970 00:00:00 GMT", sha256_digest := some "s", reservation := 1, last_noted := 1, content_key := "body_/u_0.000000-1" }) else none) { url := "/u", headers := [("If-Modified-Since", "Thu, 01 Jan 1970 00:00:00 GMT")], time := 0 } =
      Except.ok (some { status := "304 Not Modified", headers := [], content := [] }) :=
  (check_for_cache_response_decision_order
    (fun k => if k = "metadata_/u" then some (KVValue.meta { valid := true, session := 0, url := "/u", fetched := 0, last_modified := "Thu, 01 Jan 1970 00:00:00 GMT", sha256_digest := some "s", reservation := 1, last_noted := 1, content_key := "body_/u_0.000000-1" }) else none)
    { url := "/u", headers := [("If-Modified-Since", "Thu, 01 Jan 1970 00:00:00 GMT")], time := 0 }).2.2.2.1
    { valid := true, session := 0, url := "/u", fetched := 0, last_modified := "Thu, 01 Jan 1970 00:00:00 GMT", sha256_digest := some "s", reservation := 1, last_noted := 1, content_key := "body_/u_0.000000-1" }
    "Thu, 01 Jan 1970 00:00:00 GMT" 0 0 rfl rfl (by decide) rfl rfl rfl (by decide)

/-- C6 (amended): a malformed If-Modified-Since header on an otherwise
servable entry makes `check_for_cache_response` raise the date-parsing
`ValueError` — which the orchestrator boundary does not catch — rather
than being treated as absent. -/
theorem malformed_if_modified_since_raises (store : Store) (req : WSGIRequest)
    (md : EntryMetadata) (s : String)
    (h : getMeta store (make_metadata_key req.url) = some md)
    (hv : md.valid = true)
    (hle : req.time ≤ md.fetched + EXPIRE_SECS * usPerSec)
    (hs : lookupHeader req.headers "If-Modified-Since" = some s)
    (hbad : parseHttpDate s = none) :
    check_for_cache_response store req = Except.error PyExn.valueError ∧
    handle_application (Except.error PyExn.valueError) =
      Except.error PyExn.valueError := by
  have hnexp : ¬ (req.time > md.fetched + EXPIRE_SECS * usPerSec) := by omega
  constructor
  · unfold check_for_cache_response
    rw [h]
    simp [check_with_metadata, hv, hnexp, hs, hbad]
  · rfl

/-- C6 counterexample: with a servable cached entry, a request whose
If-Modified-Since is the unparseable string "garbage" errors out with
`ValueError`, while the identical request without the header is served
from cache — refuting the claim that a malformed conditional header is
treated as absent. -/
theorem malformed_if_modified_since_counterexample :
    check_for_cache_response (fun k => if k = "metadata_/u" then some (KVValue.meta { valid := true, session := 0, url := "/u", fetched := 0, last_modified := "Thu, 01 Jan 1970 00:00:00 GMT", sha256_digest := some "stuff", reservation := 1, last_noted := 1, content_key := "body_/u_0.000000-1" }) else if k = "body_/u_0.000000-1" then some (KVValue.body { status := "200 OK", url := "/u", headers := [], content := "stuff" }) else none) { url := "/u", headers := [("If-Modified-Since", "garbage")], time := 0 } =
      Except.error PyExn.valueError ∧
    check_for_cache_response (fun k => if k = "metadata_/u" then some (KVValue.meta { valid := true, session := 0, url := "/u", fetched := 0, last_modified := "Thu, 01 Jan 1970 00:00:00 GMT", sha256_digest := some "stuff", reservation := 1, last_noted := 1, content_key := "body_/u_0.000000-1" }) else if k = "body_/u_0.000000-1" then some (KVValue.body { status := "200 OK", url := "/u", headers := [], content := "stuff" }) else none) { url := "/u", headers := [], time := 0 } =
      Except.ok (some { status := "200 OK", headers := [("Last-Modified", "Thu, 01 Jan 1970 00:00:00 GMT")], content := ["stuff"] }) := by
  constructor
  · rfl
  · rfl

/-- Witness for the malformed-header theorem at the same concrete
store and request. -/
theorem malformed_if_modified_since_raises_witness :
    check_for_cache_response (fun k => if k = "metadata_/u" then some (KVValue.meta { valid := true, session := 0, url := "/u", fetched := 0, last_modified := "Thu, 01 Jan 1970 00:00:00 GMT", sha256_digest := some "stuff", reservation := 1, last_noted := 1, content_key := "body_/u_0.000000-1" }) else none) { url := "/u", headers := [("If-Modified-Since", "garbage")], time := 0 } =
      Except.error PyExn.valueError :=
  (malformed_if_modified_since_raises
    (fun k => if k = "metadata_/u" then some (KVValue.meta { valid := true, session := 0, url := "/u", fetched := 0, last_modified := "Thu, 01 Jan 1970 00:00:00 GMT", sha256_digest := some "stuff", reservation := 1, last_noted := 1, content_key := "body_/u_0.000000-1" }) else none)
    { url := "/u", headers := [("If-Modified-Since", "garbage")], time := 0 }
    { valid := true, session := 0, url := "/u", fetched := 0, last_modified := "Thu, 01 Jan 1970 00:00:00 GMT", sha256_digest := some "stuff", reservation := 1, last_noted := 1, content_key := "body_/u_0.000000-1" }
    "garbage" rfl rfl (by decide) rfl rfl).1

/-- C10: `WSGIResponse.from_cache_metadata` produces a response only when
the content record behind the metadata's `content_key` is obtainable —
when it is absent the build fails (the source dereferences `None`); and
`update_cache`'s parallel-winner branch can return exactly such a
metadata: in a concrete run the re-check accepts the stored entry via the
304 path (If-Modified-Since) while its content record has been evicted,
and the returned metadata's content key resolves to nothing. -/
theorem from_cache_metadata_requires_content :
    (∀ (store : Store) (md : EntryMetadata),
      getBody store md.content_key = none →
      WSGIResponse.from_cache_metadata store md = none) ∧
    (update_cache { url := "/u", headers := [("If-Modified-Since", "Thu, 01 Jan 1970 00:00:00 GMT")], time := 0 } { status_code := 200, reason := "OK", headers := [], content := "new" } (0, 2) 0 true (fun _ => { snapshot := fun k => if k = "metadata_/u" then some (KVValue.meta { valid := true, session := 0, url := "/u", fetched := 0, last_modified := "Thu, 01 Jan 1970 00:00:00 GMT", sha256_digest := some "stuff", reservation := 1, last_noted := 1, content_key := "body_/u_0.000000-1" }) else none, now := 0, casOk := false, casNotFound := false, addOk := false }) =
        Except.ok ({ valid := true, session := 0, url := "/u", fetched := 0, last_modified := "Thu, 01 Jan 1970 00:00:00 GMT", sha256_digest := some "stuff", reservation := 1, last_noted := 1, content_key := "body_/u_0.000000-1" }, [KVOp.set "body_/u_0.000000-2", KVOp.delete "body_/u_0.000000-2"]) ∧
      getBody (fun k => if k = "metadata_/u" then some (KVValue.meta { valid := true, session := 0, url := "/u", fetched := 0, last_modified := "Thu, 01 Jan 1970 00:00:00 GMT", sha256_digest := some "stuff", reservation := 1, last_noted := 1, content_key := "body_/u_0.000000-1" }) else none) "body_/u_0.000000-1" = none ∧
      WSGIResponse.from_cache_metadata (fun k => if k = "metadata_/u" then some (KVValue.meta { valid := true, session := 0, url := "/u", fetched := 0, last_modified := "Thu, 01 Jan 1970 00:00:00 GMT", sha256_digest := some "stuff", reservation := 1, last_noted := 1, content_key := "body_/u_0.000000-1" }) else none) { valid := true, session := 0, url := "/u", fetched := 0, last_modified := "Thu, 01 Jan 1970 00:00:00 GMT", sha256_digest := some "stuff", reservation := 1, last_noted := 1, content_key := "body_/u_0.000000-1" } = none) := by
  constructor
  · intro store md h
    unfold WSGIResponse.from_cache_metadata
    rw [h]
    rfl
  · exact ⟨rfl, rfl, rfl⟩

/-- Witness for the content-requirement theorem at a concrete store with
the content record evicted. -/
theorem from_cache_metadata_requires_content_witness :
    WSGIResponse.from_cache_metadata (fun k => if k = "metadata_/u" then some (KVValue.meta { valid := true, session := 0, url := "/u", fetched := 0, last_modified := "Thu, 01 Jan 1970 00:00:00 GMT", sha256_digest := some "stuff", reservation := 1, last_noted := 1, content_key := "body_/u_0.000000-9" }) else none) { valid := true, session := 0, url := "/u", fetched := 0, last_modified := "Thu, 01 Jan 1970 00:00:00 GMT", sha256_digest := some "stuff", reservation := 1, last_noted := 1, content_key := "body_/u_0.000000-9" } = none :=
  from_cache_metadata_requires_content.1
    (fun k => if k = "metadata_/u" then some (KVValue.meta { valid := true, session := 0, url := "/u", fetched := 0, last_modified := "Thu, 01 Jan 1970 00:00:00 GMT", sha256_digest := some "stuff", reservation := 1, last_noted := 1, content_key := "body_/u_0.000000-9" }) else none)
    { valid := true, session := 0, url := "/u", fetched := 0, last_modified := "Thu, 01 Jan 1970 00:00:00 GMT", sha256_digest := some "stuff", reservation := 1, last_noted := 1, content_key := "body_/u_0.000000-9" }
    rfl

/-- Helper: a decimal digit character's code point recovers the digit. -/
theorem digitChar_toNat_sub48 : ∀ k, k < 10 → (Nat.digitChar k).toNat - 48 = k := by
  decide

/-- Helper: `Nat.digitChar` is injective on digits. -/
theorem digitChar_inj_lt10 :
    ∀ a, a < 10 → ∀ b, b < 10 → Nat.digitChar a = Nat.digitChar b → a = b := by
  decide

/-- Helper: folding the decimal-value accumulator over the digits
emitted by `Nat.toDigitsCore` recovers the rendered number. -/
theorem toDigitsCore_foldl :
    ∀ (fuel n : Nat) (ds : List Char), n < fuel →
      (Nat.toDigitsCore 10 fuel n ds).foldl (fun a c => 10 * a + (c.toNat - 48)) 0 =
        ds.foldl (fun a c => 10 * a + (c.toNat - 48)) n := by
  intro fuel
  induction fuel with
  | zero => intro n ds h; omega
  | succ f ih =>
    intro n ds h
    have hd : (Nat.digitChar (n % 10)).toNat - 48 = n % 10 :=
      digitChar_toNat_sub48 (n % 10) (Nat.mod_lt n (by decide))
    by_cases h10 : n / 10 = 0
    · have hn : n < 10 := by omega
      simp only [Nat.toDigitsCore, h10, if_true, reduceIte, List.foldl_cons]
      rw [hd]
      have : 10 * 0 + n % 10 = n := by omega
      rw [this]
    · have hlt : n / 10 < f := by omega
      simp only [Nat.toDigitsCore, h10, if_false, reduceIte]
      rw [ih (n / 10) (Nat.digitChar (n % 10) :: ds) hlt]
      simp only [List.foldl_cons]
      rw [hd]
      have : 10 * (n / 10) + n % 10 = n := by omega
      rw [this]

/-- Helper: the decimal-value fold inverts `Nat.toDigits`. -/
theorem foldl_toDigits (n : Nat) :
    (Nat.toDigits 10 n).foldl (fun a c => 10 * a + (c.toNat - 48)) 0 = n := by
  unfold Nat.toDigits
  rw [toDigitsCore_foldl (n + 1) n [] (Nat.lt_succ_self n)]
  rfl

/-- Helper: the decimal rendering `Nat.repr` (strftime and key formats
use it through the `%d` directive) is injective. -/
theorem nat_repr_injective {m n : Nat} (h : Nat.repr m = Nat.repr n) : m = n := by
  have hdata : Nat.toDigits 10 m = Nat.toDigits 10 n := by
    have hc := congrArg String.data h
    simpa [Nat.repr, List.asString] using hc
  have hm := foldl_toDigits m
  rw [hdata, foldl_toDigits n] at hm
  exact hm.symm

/-- Helper: the six zero-padded fraction digits determine the fraction. -/
theorem microDigits_injective {a b : Nat} (ha : a < 1000000) (hb : b < 1000000)
    (h : microDigits a = microDigits b) : a = b := by
  unfold microDigits at h
  simp only [List.cons.injEq, and_true] at h
  obtain ⟨h1, h2, h3, h4, h5, h6⟩ := h
  have e1 := digitChar_inj_lt10 _ (Nat.mod_lt _ (by decide)) _ (Nat.mod_lt _ (by decide)) h1
  have e2 := digitChar_inj_lt10 _ (Nat.mod_lt _ (by decide)) _ (Nat.mod_lt _ (by decide)) h2
  have e3 := digitChar_inj_lt10 _ (Nat.mod_lt _ (by decide)) _ (Nat.mod_lt _ (by decide)) h3
  have e4 := digitChar_inj_lt10 _ (Nat.mod_lt _ (by decide)) _ (Nat.mod_lt _ (by decide)) h4
  have e5 := digitChar_inj_lt10 _ (Nat.mod_lt _ (by decide)) _ (Nat.mod_lt _ (by decide)) h5
  have e6 := digitChar_inj_lt10 _ (Nat.mod_lt _ (by decide)) _ (Nat.mod_lt _ (by decide)) h6
  omega

/-- Helper: the `"%f"` rendering of a microsecond instant is injective. -/
theorem fmtMicros_injective {s1 s2 : Nat} (h : fmtMicros s1 = fmtMicros s2) :
    s1 = s2 := by
  have hd := congrArg String.data h
  simp only [fmtMicros, String.data_append] at hd
  obtain ⟨hl, hr⟩ := List.append_inj' hd (by simp [microDigits])
  have hsecs : s1 / 1000000 = s2 / 1000000 :=
    nat_repr_injective (String.ext (List.append_cancel_right hl))
  have hmic : s1 % 1000000 = s2 % 1000000 :=
    microDigits_injective (Nat.mod_lt _ (by decide)) (Nat.mod_lt _ (by decide)) hr
  omega

/-- C9: for a fixed URL, `make_content_key` is injective in the
reservation number at a fixed session, and injective in the session (at
microsecond resolution) at a fixed reservation — so every content key
within one metadata lifetime, and across lifetimes with distinct
sessions, is unique. -/
theorem make_content_key_injective :
    (∀ url session r1 r2, r1 ≠ r2 →
      make_content_key url (session, r1) ≠ make_content_key url (session, r2)) ∧
    (∀ url r s1 s2, s1 ≠ s2 →
      make_content_key url (s1, r) ≠ make_content_key url (s2, r)) := by
  constructor
  · intro url session r1 r2 hne h
    apply hne
    have hd := congrArg String.data h
    simp only [make_content_key, String.data_append] at hd
    exact nat_repr_injective (String.ext (List.append_cancel_left hd))
  · intro url r s1 s2 hne h
    apply hne
    have hd := congrArg String.data h
    simp only [make_content_key, String.data_append] at hd
    have h1 := List.append_cancel_right hd
    have h2 := List.append_cancel_right h1
    have h3 := List.append_cancel_left h2
    exact fmtMicros_injective (String.ext h3)

/-- Witness for the key-injectivity theorem: distinct reservations and
microsecond-distinct sessions give distinct concrete keys. -/
theorem make_content_key_injective_witness :
    make_content_key "/u" (0, 1) ≠ make_content_key "/u" (0, 2) ∧
    make_content_key "/u" (5000000, 1) ≠ make_content_key "/u" (5000001, 1) := by
  constructor
  · exact make_content_key_injective.1 "/u" 0 1 2 (by decide)
  · exact make_content_key_injective.2 "/u" 1 5000000 5000001 (by decide)
